import Mathlib

/-!
# Course-enrollment front end (`static/script.js`): a shallow embedding

The script is browser glue around a JSON API.  Its pure parts (`escapeHtml`,
the row builders of `renderAllCourses` / `renderTeacherCourses`) become Lean
functions on strings.  Its handlers (`updateLoginButton`, `editGrade`,
`enrollInCourse`, `dropCourse`) become functions from the part of the browser
state they read (DOM cell text, prompt / confirm answer, outcome of the
`fetch`) to the part they write (new cell text, the list of observable
effects in program order).

JavaScript strings are modelled by Lean `String` (sequences of code points);
every character the script inspects is ASCII or a BMP white-space character,
so the code-unit / code-point distinction never matters.  JavaScript numbers
occurring here (ids, counts, grades) are integers and modelled by `Int`.
-/

namespace Script

/-! ## JavaScript values, as far as the script looks at them -/

/-- A value found in a parsed JSON body (or `undefined` for a missing field). -/
inductive JsVal where
  | undefined
  | null
  | bool (b : Bool)
  | num (n : Int)
  | str (s : String)
  deriving DecidableEq, Repr

/-- ECMAScript `ToBoolean`: what `!!v`, `v || w` and `v ? a : b` test. -/
def JsVal.truthy : JsVal → Bool
  | .undefined => false
  | .null => false
  | .bool b => b
  | .num n => n != 0
  | .str s => s != ""

/-- ECMAScript `ToString`: what `String(v)`, a template hole and `alert(v)` show. -/
def JsVal.toStr : JsVal → String
  | .undefined => "undefined"
  | .null => "null"
  | .bool true => "true"
  | .bool false => "false"
  | .num n => toString n
  | .str s => s

/-- The JavaScript expression `a || b`. -/
def JsVal.or (a b : JsVal) : JsVal := if a.truthy then a else b

/-- ECMAScript `WhiteSpace` and `LineTerminator` code points: the characters
removed by `String.prototype.trim` and skipped at the start by `parseInt`. -/
def isWhiteSpace (c : Char) : Bool :=
  c.toNat ∈ [0x09, 0x0A, 0x0B, 0x0C, 0x0D, 0x20, 0xA0, 0x1680,
    0x2000, 0x2001, 0x2002, 0x2003, 0x2004, 0x2005, 0x2006, 0x2007, 0x2008,
    0x2009, 0x200A, 0x2028, 0x2029, 0x202F, 0x205F, 0x3000, 0xFEFF]

/-- `String.prototype.trim` on the characters of a string. -/
def trimChars (s : List Char) : List Char :=
  ((s.dropWhile isWhiteSpace).reverse.dropWhile isWhiteSpace).reverse

/-- `s.trim()`. -/
def trim (s : String) : String := ⟨trimChars s.data⟩

/-- Value of a run of decimal digits, most significant digit first. -/
def digitsValue (ds : List Char) : Nat :=
  ds.foldl (fun acc d => 10 * acc + (d.toNat - 48)) 0

/-- `parseInt(input, 10)` on the characters left after the leading white space
has been stripped: optional sign, then the longest run of decimal digits;
whatever follows the digits is ignored.  `none` is `NaN`. -/
def parseIntCore : List Char → Option Int
  | '-' :: rest =>
    let z := rest.takeWhile Char.isDigit
    if z.isEmpty then none else some (-(digitsValue z : Int))
  | '+' :: rest =>
    let z := rest.takeWhile Char.isDigit
    if z.isEmpty then none else some (digitsValue z : Int)
  | s =>
    let z := s.takeWhile Char.isDigit
    if z.isEmpty then none else some (digitsValue z : Int)

/-- `parseInt(input, 10)`; `none` is `NaN`.  The result `-0` (from `"-0"`) is
the integer `0`: it is not `NaN`, not `< 0`, not `> 100`, and both
`JSON.stringify` and `String` print it as `0`.  A digit run too long for a
double is far above 100 both here and in JavaScript. -/
def parseInt (input : String) : Option Int :=
  parseIntCore (input.data.dropWhile isWhiteSpace)

/-! ## Observable effects of the handlers -/

/-- What a handler does to the world outside its own variables. -/
inductive Effect where
  /-- `prompt(message, default)` -/
  | prompt (message : String) (dflt : String)
  /-- `confirm(message)` -/
  | confirm (message : String)
  /-- `alert(text)` -/
  | alert (text : String)
  /-- `fetch(API_URL + path, ...)` with the given method and the JSON body
  `{idKey: id}`, or `{idKey: id, grade}` when a grade is carried. -/
  | fetch (method : String) (path : String) (idKey : String) (id : Int) (grade : Option Int)
  /-- `console.error(e)` -/
  | consoleError
  /-- `await loadStudentDashboard()` -/
  | loadStudentDashboard
  deriving DecidableEq, Repr

/-- Outcome of `await fetch(...)` followed by `await res.json()`. -/
inductive FetchResult where
  /-- `fetch` rejects, `res.json()` rejects, or the body is JSON `null`
  (reading a field of it throws): control reaches the `catch` block. -/
  | throws
  /-- A response with `res.ok = ok` whose JSON body has the fields
  `success` and `message` (`undefined` when missing). -/
  | response (ok : Bool) (success : JsVal) (message : JsVal)
  deriving DecidableEq, Repr

/-- Result of running a handler: the cell text afterwards and the effects. -/
structure Outcome where
  cell : Option String
  effects : List Effect
  deriving DecidableEq, Repr

/-- `window.editGrade(enrollmentId)`.
`cell` is `document.getElementById(cellId)` (`none` when absent, else its
`textContent`), `answer` what `prompt` returns (`none` for `null`, i.e.
cancelled), `res` how the request ends if it is made. -/
def editGrade (enrollmentId : Int) (cell : Option String) (answer : Option String)
    (res : FetchResult) : Outcome :=
  match cell with
  | none => ⟨none, []⟩
  | some text =>
    let current := if text = "N/A" then "" else trim text
    let asked := Effect.prompt "Enter new grade (0-100):" current
    match answer with
    | none => ⟨some text, [asked]⟩
    | some input =>
      match parseInt input with
      | none => ⟨some text, [asked, .alert "Please enter a valid number between 0 and 100."]⟩
      | some grade =>
        if grade < 0 ∨ grade > 100 then
          ⟨some text, [asked, .alert "Please enter a valid number between 0 and 100."]⟩
        else
          let sent := Effect.fetch "PUT" "/api/grade" "enrollment_id" enrollmentId (some grade)
          match res with
          | .throws => ⟨some text, [asked, sent, .consoleError, .alert "Failed to update grade."]⟩
          | .response ok success message =>
            if !ok || !success.truthy then
              ⟨some text, [asked, sent,
                .alert (message.or (.str "Failed to update grade.")).toStr]⟩
            else
              ⟨some (toString grade), [asked, sent, .alert "Grade updated successfully."]⟩

/-- `window.enrollInCourse(courseId)`; `res` is how the request ends. -/
def enrollInCourse (courseId : Int) (res : FetchResult) : List Effect :=
  let sent := Effect.fetch "POST" "/api/enroll" "course_id" courseId none
  match res with
  | .throws => [sent, .consoleError, .alert "Failed to enroll."]
  | .response ok success message =>
    if !ok || !success.truthy then
      [sent, .alert (message.or (.str "Failed to enroll.")).toStr]
    else
      [sent, .loadStudentDashboard, .alert "Enrolled successfully."]

/-- `window.dropCourse(courseId)`; `confirmed` is what `confirm` returns,
`res` how the request ends if it is made. -/
def dropCourse (courseId : Int) (confirmed : Bool) (res : FetchResult) : List Effect :=
  let asked := Effect.confirm "Drop this course?"
  if !confirmed then [asked]
  else
    let sent := Effect.fetch "POST" "/api/drop" "course_id" courseId none
    match res with
    | .throws => [asked, sent, .consoleError, .alert "Failed to drop."]
    | .response ok success message =>
      if !ok || !success.truthy then
        [asked, sent, .alert (message.or (.str "Failed to drop.")).toStr]
      else
        [asked, sent, .loadStudentDashboard, .alert "Dropped successfully."]

/-- The alert shown when validation of the prompt text fails. -/
def invalidGradeAlert : Effect := .alert "Please enter a valid number between 0 and 100."

/-- Following the claim's words, "the text denotes an integer": an optional
minus sign followed by one or more decimal digits, and nothing else. -/
def denotesInteger (text : String) : Bool :=
  match text.data with
  | '-' :: rest => !rest.isEmpty && rest.all Char.isDigit
  | cs => !cs.isEmpty && cs.all Char.isDigit

/-! ## The login button -/

/-- The two properties of the submit button that `updateLoginButton` writes. -/
structure Button where
  classList : List String
  disabled : Bool
  deriving DecidableEq, Repr

/-- `classList.add(token)`: the token list is an ordered set. -/
def classListAdd (classes : List String) (token : String) : List String :=
  if token ∈ classes then classes else classes ++ [token]

/-- `classList.remove(token)`. -/
def classListRemove (classes : List String) (token : String) : List String :=
  classes.filter (fun t => t != token)

/-- `updateLoginButton()`.  `loginButton` is the submit button (`none` when the
form or the button is missing); `usernameInput` / `passwordInput` are the
`value`s of the two inputs (`none` when the element is missing).  Returns the
button afterwards. -/
def updateLoginButton (loginButton : Option Button)
    (usernameInput passwordInput : Option String) : Option Button :=
  match loginButton, usernameInput, passwordInput with
  | some button, some username, some password =>
    let usernameFilled := trim username != ""
    let passwordFilled := trim password != ""
    if usernameFilled && passwordFilled then
      some { classList := classListAdd button.classList "active", disabled := false }
    else
      some { classList := classListRemove button.classList "active", disabled := true }
  | button, _, _ => button

/-! ## `escapeHtml` -/

/-- One `replaceAll` step on a list of characters. -/
def replaceChars (pattern : Char) (replacement : List Char) (l : List Char) : List Char :=
  l.flatMap fun c => if c = pattern then replacement else [c]

/-- `s.replaceAll(pattern, replacement)` for a one-character pattern and a
replacement without `$`. -/
def replaceAll (s : String) (pattern : Char) (replacement : String) : String :=
  ⟨replaceChars pattern replacement.data s.data⟩

/-- `escapeHtml(str)`: `String(str)` followed by the five `replaceAll` calls
in source order. -/
def escapeHtml (str : JsVal) : String :=
  replaceAll (replaceAll (replaceAll (replaceAll (replaceAll str.toStr
    '&' "&amp;") '<' "&lt;") '>' "&gt;") (Char.ofNat 34) "&quot;") (Char.ofNat 39) "&#39;"

/-- The five entities `escapeHtml` can emit. -/
def entities : List String := ["&amp;", "&lt;", "&gt;", "&quot;", "&#39;"]

/-- The five characters `escapeHtml` replaces: `&`, `<`, `>`, double quote and
apostrophe. -/
def specialChars : List Char := ['&', '<', '>', Char.ofNat 34, Char.ofNat 39]

/-- What the five `replaceAll` steps make of a single character. -/
def escapeChar (c : Char) : List Char :=
  replaceChars (Char.ofNat 39) "&#39;".data (replaceChars (Char.ofNat 34) "&quot;".data
    (replaceChars '>' "&gt;".data (replaceChars '<' "&lt;".data
      (replaceChars '&' "&amp;".data [c]))))

/-- Every `&` of a character list starts one of the five entities. -/
def AmpersandsStartEntities (l : List Char) : Prop :=
  ∀ i, l[i]? = some '&' → ∃ e ∈ entities, e.data <+: l.drop i

/-! ## Student dashboard: `renderAllCourses` -/

/-- A course object of `GET /api/courses`, with the fields the script reads. -/
structure Course where
  id : Int
  course_name : JsVal
  course_code : JsVal
  teacher_name : JsVal
  time : JsVal
  enrolled_count : Int
  capacity : Int
  is_full : JsVal
  deriving DecidableEq, Repr

/-- The local constants computed for one row of `renderAllCourses`. -/
structure CourseRow where
  isEnrolled : Bool
  isFull : Bool
  disabled : Bool
  status : String
  buttonClass : String
  deriving DecidableEq, Repr

/-- The body of the `allCourses.map` callback up to the `return`;
`enrolledIds` lists the members of the `Set`. -/
def courseRow (c : Course) (enrolledIds : List Int) : CourseRow :=
  let isEnrolled := enrolledIds.contains c.id
  let isFull := c.is_full.truthy
  { isEnrolled := isEnrolled
    isFull := isFull
    disabled := isEnrolled || isFull
    status := if isEnrolled then "Enrolled" else (if isFull then "Full" else "Open")
    buttonClass := if isFull then "full" else "" }

/-- The template literal returned by the `allCourses.map` callback. -/
def courseRowHtml (c : Course) (enrolledIds : List Int) : String :=
  let r := courseRow c enrolledIds
  "\n      <tr>\n        <td>" ++ escapeHtml c.course_name ++ " (" ++ escapeHtml c.course_code
    ++ ")</td>\n        <td>" ++ escapeHtml (c.teacher_name.or (.str "TBA"))
    ++ "</td>\n        <td>" ++ escapeHtml c.time
    ++ "</td>\n        <td>" ++ toString c.enrolled_count ++ "/" ++ toString c.capacity
    ++ "</td>\n        <td>" ++ r.status
    ++ "</td>\n        <td>\n          <button class=\"" ++ r.buttonClass ++ "\" "
    ++ (if r.disabled then "disabled" else "") ++ " onclick=\"enrollInCourse("
    ++ toString c.id ++ ")\">Enroll</button>\n        </td>\n      </tr>\n    "

/-- `renderAllCourses(container, allCourses, enrolledIds)`: the new
`container.innerHTML`. -/
def renderAllCourses (allCourses : List Course) (enrolledIds : List Int) : String :=
  if allCourses.isEmpty then "<div class=\"empty\">No courses available.</div>"
  else
    let rows := String.join (allCourses.map fun c => courseRowHtml c enrolledIds)
    "\n    <table>\n      <thead>\n        <tr>\n          <th>Course</th>\n"
      ++ "          <th>Instructor</th>\n          <th>Time</th>\n"
      ++ "          <th>Enrolled</th>\n          <th>Status</th>\n"
      ++ "          <th>Action</th>\n        </tr>\n      </thead>\n      <tbody>"
      ++ rows ++ "</tbody>\n    </table>\n  "

/-- A sample course object: full at 30/30, instructor not yet assigned. -/
def sampleFullCourse : Course :=
  ⟨3, .str "Logic", .str "PHIL2", .null, .str "TR 1", 30, 30, .bool true⟩

/-! ## Teacher dashboard: `renderTeacherCourses` -/

/-- An enrollment entry of a teacher course (`c.students[i]`). -/
structure Student where
  id : Int
  student_name : JsVal
  grade : JsVal
  deriving DecidableEq, Repr

/-- A course object of `GET /api/teacher/courses`.  `students` is `none` when
the field is missing or `null`. -/
structure TeacherCourse where
  course_name : JsVal
  course_code : JsVal
  time : JsVal
  enrolled_count : JsVal
  capacity : JsVal
  students : Option (List Student)
  deriving DecidableEq, Repr

/-- The template literal returned by the inner `map` callback: one table row
per student. -/
def studentRowHtml (s : Student) : String :=
  let grade := if s.grade = .null ∨ s.grade = .undefined then JsVal.str "N/A" else s.grade
  let gradeCellId := "grade-" ++ toString s.id
  "\n                <tr>\n                    <td>"
    ++ escapeHtml (s.student_name.or (.str "Unknown"))
    ++ "</td>\n                    <td id=\"" ++ gradeCellId ++ "\">" ++ grade.toStr
    ++ "</td>\n                    <td><button onclick=\"editGrade(" ++ toString s.id
    ++ ")\">Edit</button></td>\n                </tr>\n            "

/-- The student rows listed for a course: `(c.students || []).map(...)`. -/
def studentRows (c : TeacherCourse) : List String :=
  (c.students.getD []).map studentRowHtml

/-- The value interpolated before the slash in `Enrolled: n/capacity`:
`c.enrolled_count || (c.students ? c.students.length : 0)`. -/
def enrolledShown (c : TeacherCourse) : JsVal :=
  c.enrolled_count.or (.num (match c.students with
    | some students => (students.length : Int)
    | none => 0))

/-- The template literal returned by the outer `map` callback: one course card. -/
def courseCardHtml (c : TeacherCourse) : String :=
  let rows := String.join (studentRows c)
  let studentsTable :=
    if rows != "" then
      "\n                <table>\n                    <thead>\n"
        ++ "                        <tr>\n"
        ++ "                            <th>Student</th>\n"
        ++ "                            <th>Grade</th>\n"
        ++ "                            <th>Actions</th>\n"
        ++ "                        </tr>\n                    </thead>\n"
        ++ "                    <tbody>" ++ rows ++ "</tbody>\n"
        ++ "                </table>\n              "
    else "<div class=\"empty\">No students enrolled.</div>"
  "\n            <div class=\"course-card\">\n                <div class=\"course-head\">\n"
    ++ "                    <div><strong>" ++ escapeHtml c.course_name ++ "</strong> ("
    ++ escapeHtml c.course_code ++ ")</div>\n"
    ++ "                    <div class=\"course-meta\">" ++ escapeHtml c.time
    ++ " • Enrolled: " ++ (enrolledShown c).toStr ++ "/" ++ c.capacity.toStr ++ "</div>\n"
    ++ "                </div>\n                <div class=\"course-body\">\n"
    ++ "                    " ++ studentsTable ++ "\n                </div>\n"
    ++ "            </div>\n        "

/-- `renderTeacherCourses(container, courses)`: the new `container.innerHTML`. -/
def renderTeacherCourses (courses : List TeacherCourse) : String :=
  if courses.isEmpty then "<div class=\"empty\">No courses assigned.</div>"
  else String.join (courses.map courseCardHtml)

/-! # Theorems

## `editGrade` -/

/-- When the parsed grade is out of range or missing, `editGrade` stops after
the validation alert. -/
theorem editGrade_invalid (enrollmentId : Int) (text input : String) (res : FetchResult)
    (h : ¬ ∃ g, parseInt input = some g ∧ 0 ≤ g ∧ g ≤ 100) :
    editGrade enrollmentId (some text) (some input) res =
      ⟨some text, [.prompt "Enter new grade (0-100):" (if text = "N/A" then "" else trim text),
        invalidGradeAlert]⟩ := by
  cases hp : parseInt input with
  | none => simp [editGrade, invalidGradeAlert, hp]
  | some g =>
    have hg : g < 0 ∨ g > 100 := by
      by_contra hc
      exact h ⟨g, hp, by omega, by omega⟩
    simp [editGrade, invalidGradeAlert, hp, hg]

/-- When the parsed grade is in range, `editGrade` sends the request and then
acts on how it ends. -/
theorem editGrade_valid (enrollmentId : Int) (text input : String) (res : FetchResult)
    (g : Int) (hp : parseInt input = some g) (h0 : 0 ≤ g) (h100 : g ≤ 100) :
    editGrade enrollmentId (some text) (some input) res =
      match res with
      | .throws => ⟨some text,
          [.prompt "Enter new grade (0-100):" (if text = "N/A" then "" else trim text),
           .fetch "PUT" "/api/grade" "enrollment_id" enrollmentId (some g),
           .consoleError, .alert "Failed to update grade."]⟩
      | .response ok success message =>
        if !ok || !success.truthy then ⟨some text,
          [.prompt "Enter new grade (0-100):" (if text = "N/A" then "" else trim text),
           .fetch "PUT" "/api/grade" "enrollment_id" enrollmentId (some g),
           .alert (message.or (.str "Failed to update grade.")).toStr]⟩
        else ⟨some (toString g),
          [.prompt "Enter new grade (0-100):" (if text = "N/A" then "" else trim text),
           .fetch "PUT" "/api/grade" "enrollment_id" enrollmentId (some g),
           .alert "Grade updated successfully."]⟩ := by
  have hg : ¬ (g < 0 ∨ g > 100) := by omega
  unfold editGrade
  simp only [hp, hg, if_false]

/-- Re-reading the decimal text of a grade between 0 and 100 with `parseInt`
gives the grade back. -/
theorem parseInt_toString_grade (g : Int) (h0 : 0 ≤ g) (h100 : g ≤ 100) :
    parseInt (toString g) = some g := by
  obtain ⟨n, rfl⟩ := Int.eq_ofNat_of_zero_le h0
  have hn : n ≤ 100 := by omega
  interval_cases n <;> decide

/-- C1, as stated, fails: the texts `85.5` and `12abc` do not denote integers,
yet `editGrade` shows no validation alert and sends the request, carrying the
leading integers 85 and 12. -/
theorem editGrade_submits_non_integer_text :
    denotesInteger "85.5" = false ∧ denotesInteger "12abc" = false ∧
    (editGrade 7 (some "N/A") (some "85.5") (.response true (.bool true) .undefined)).effects =
      [.prompt "Enter new grade (0-100):" "",
       .fetch "PUT" "/api/grade" "enrollment_id" 7 (some 85),
       .alert "Grade updated successfully."] ∧
    (editGrade 7 (some "N/A") (some "12abc") (.response true (.bool true) .undefined)).effects =
      [.prompt "Enter new grade (0-100):" "",
       .fetch "PUT" "/api/grade" "enrollment_id" 7 (some 12),
       .alert "Grade updated successfully."] := by
  decide

/-- C1, amended: with the grade cell present and the prompt answered, a request
is sent if and only if `parseInt(text, 10)` is a number between 0 and 100;
otherwise the only effects are the prompt and the validation alert.  The texts
`-1`, `101`, `abc` and the empty text are rejected, `0` and `100` are
submitted, and `85.5` and `12abc` are read as 85 and 12. -/
theorem editGrade_request_iff_parseInt_in_range (enrollmentId : Int) (text input : String)
    (res : FetchResult) :
    ((∃ m p k i g, Effect.fetch m p k i g ∈
        (editGrade enrollmentId (some text) (some input) res).effects) ↔
      ∃ g, parseInt input = some g ∧ 0 ≤ g ∧ g ≤ 100) ∧
    ((¬ ∃ g, parseInt input = some g ∧ 0 ≤ g ∧ g ≤ 100) →
      (editGrade enrollmentId (some text) (some input) res).effects =
        [.prompt "Enter new grade (0-100):" (if text = "N/A" then "" else trim text),
         invalidGradeAlert]) ∧
    parseInt "-1" = some (-1) ∧ parseInt "101" = some 101 ∧ parseInt "abc" = none ∧
    parseInt "" = none ∧ parseInt "0" = some 0 ∧ parseInt "100" = some 100 ∧
    parseInt "85.5" = some 85 ∧ parseInt "12abc" = some 12 := by
  refine ⟨⟨?_, ?_⟩, ?_, by decide, by decide, by decide, by decide, by decide, by decide,
    by decide, by decide⟩
  · rintro ⟨m, p, k, i, g, hmem⟩
    by_contra hinv
    rw [editGrade_invalid enrollmentId text input res hinv] at hmem
    simp [invalidGradeAlert] at hmem
  · rintro ⟨g, hp, h0, h100⟩
    refine ⟨"PUT", "/api/grade", "enrollment_id", enrollmentId, some g, ?_⟩
    rw [editGrade_valid enrollmentId text input res g hp h0 h100]
    cases res with
    | throws => simp
    | response ok success message => by_cases hc : (!ok || !success.truthy) = true <;> simp [hc]
  · intro hinv
    rw [editGrade_invalid enrollmentId text input res hinv]

/-- C2: every request `editGrade` issues is the `PUT /api/grade` for the given
enrollment, and the grade in its body is the integer `parseInt(text, 10)` of the
prompt text, between 0 and 100; a request without a grade (`NaN`), with a
negative grade or with a grade above 100 is never issued. -/
theorem editGrade_request_grade_in_range (enrollmentId : Int) (cell answer : Option String)
    (res : FetchResult) (m p k : String) (i : Int) (grade : Option Int)
    (h : Effect.fetch m p k i grade ∈ (editGrade enrollmentId cell answer res).effects) :
    m = "PUT" ∧ p = "/api/grade" ∧ k = "enrollment_id" ∧ i = enrollmentId ∧
    ∃ input g, answer = some input ∧ parseInt input = some g ∧ grade = some g ∧
      0 ≤ g ∧ g ≤ 100 := by
  cases cell with
  | none => simp [editGrade] at h
  | some text =>
    cases answer with
    | none => simp [editGrade] at h
    | some input =>
      by_cases hv : ∃ g, parseInt input = some g ∧ 0 ≤ g ∧ g ≤ 100
      · obtain ⟨g, hp, h0, h100⟩ := hv
        rw [editGrade_valid enrollmentId text input res g hp h0 h100] at h
        have hfetch : m = "PUT" ∧ p = "/api/grade" ∧ k = "enrollment_id" ∧ i = enrollmentId ∧
            grade = some g := by
          cases res with
          | throws => simpa using h
          | response ok success message =>
            by_cases hc : (!ok || !success.truthy) = true <;> simpa [hc] using h
        obtain ⟨hm, hpath, hk, hi, hgr⟩ := hfetch
        exact ⟨hm, hpath, hk, hi, input, g, rfl, hp, hgr, h0, h100⟩
      · rw [editGrade_invalid enrollmentId text input res hv] at h
        simp [invalidGradeAlert] at h

/-- C2 at a concrete run: the answer `100` is sent as grade 100. -/
theorem editGrade_request_grade_in_range_witness :
    Effect.fetch "PUT" "/api/grade" "enrollment_id" 7 (some 100) ∈
      (editGrade 7 (some "N/A") (some "100") .throws).effects ∧
    ("PUT" = "PUT" ∧ "/api/grade" = "/api/grade" ∧ "enrollment_id" = "enrollment_id" ∧
      (7 : Int) = 7 ∧
      ∃ input g, some "100" = some input ∧ parseInt input = some g ∧ some (100 : Int) = some g ∧
        0 ≤ g ∧ g ≤ 100) :=
  ⟨by decide, editGrade_request_grade_in_range 7 (some "N/A") (some "100") .throws
    "PUT" "/api/grade" "enrollment_id" 7 (some 100) (by decide)⟩

/-- C6: `editGrade` changes the cell text only when the prompt text parses to a
grade between 0 and 100 and the response is ok with a truthy `success`; the
cell then holds exactly the decimal text of that grade, and `parseInt` of the
new cell text is the grade.  When the prompt is cancelled, validation fails,
the fetch throws or the response is a failure, the cell is left as it was. -/
theorem editGrade_cell_update (enrollmentId : Int) (cell answer : Option String)
    (res : FetchResult) :
    ((editGrade enrollmentId cell answer res).cell ≠ cell →
      ∃ input g success message, cell ≠ none ∧ answer = some input ∧
        parseInt input = some g ∧ 0 ≤ g ∧ g ≤ 100 ∧
        res = .response true success message ∧ success.truthy = true) ∧
    (∀ text input g success message, cell = some text → answer = some input →
      parseInt input = some g → 0 ≤ g → g ≤ 100 →
      res = .response true success message → success.truthy = true →
      (editGrade enrollmentId cell answer res).cell = some (toString g) ∧
      parseInt (toString g) = some g) ∧
    (answer = none → (editGrade enrollmentId cell answer res).cell = cell) ∧
    ((∀ input, answer = some input → ¬ ∃ g, parseInt input = some g ∧ 0 ≤ g ∧ g ≤ 100) →
      (editGrade enrollmentId cell answer res).cell = cell) ∧
    ((res = .throws ∨ ∃ ok success message, res = .response ok success message ∧
        (ok = false ∨ success.truthy = false)) →
      (editGrade enrollmentId cell answer res).cell = cell) := by
  rcases cell with _ | text
  · refine ⟨fun h => absurd rfl h, ?_, fun _ => rfl, fun _ => rfl, fun _ => rfl⟩
    intro text input g success message hcell
    cases hcell
  rcases answer with _ | input
  · refine ⟨fun h => absurd rfl h, ?_, fun _ => rfl, fun _ => rfl, fun _ => rfl⟩
    intro text input g success message _ hans
    cases hans
  by_cases hv : ∃ g, parseInt input = some g ∧ 0 ≤ g ∧ g ≤ 100
  · obtain ⟨g, hp, h0, h100⟩ := hv
    have hE := editGrade_valid enrollmentId text input res g hp h0 h100
    rcases res with _ | ⟨ok, success, message⟩
    · have hcellE : (editGrade enrollmentId (some text) (some input) .throws).cell = some text := by
        rw [hE]
      refine ⟨fun h => absurd hcellE h, ?_, ?_, fun _ => hcellE, fun _ => hcellE⟩
      · intro _ _ _ _ _ _ _ _ _ _ hres
        cases hres
      · intro h; cases h
    · by_cases hc : (!ok || !success.truthy) = true
      · have hcellE : (editGrade enrollmentId (some text) (some input)
            (.response ok success message)).cell = some text := by
          rw [hE]; simp only [hc, if_true]
        refine ⟨fun h => absurd hcellE h, ?_, ?_, fun _ => hcellE, fun _ => hcellE⟩
        · intro _ _ _ success2 _ _ _ _ _ _ hres hs
          cases hres
          simp [hs] at hc
        · intro h; cases h
      · have hok : ok = true ∧ success.truthy = true := by simpa using hc
        have hcellE : (editGrade enrollmentId (some text) (some input)
            (.response ok success message)).cell = some (toString g) := by
          rw [hE]; simp only [hc]; rfl
        refine ⟨fun _ => ⟨input, g, success, message, by simp, rfl, hp, h0, h100,
          by rw [hok.1], hok.2⟩, ?_, ?_, ?_, ?_⟩
        · intro _ input2 g2 _ _ _ hans hp2 _ _ _ _
          cases hans
          have hgg : g2 = g := by
            rw [hp] at hp2; exact (Option.some.inj hp2).symm
          subst hgg
          exact ⟨hcellE, parseInt_toString_grade g2 h0 h100⟩
        · intro h; cases h
        · intro hinv
          exact absurd ⟨g, hp, h0, h100⟩ (hinv input rfl)
        · intro hfail
          rcases hfail with h | ⟨ok2, success2, message2, hres, h⟩
          · cases h
          · cases hres
            rcases h with h | h
            · rw [h] at hok; exact absurd hok.1 (by decide)
            · rw [h] at hok; exact absurd hok.2 (by decide)
  · have hcellE : (editGrade enrollmentId (some text) (some input) res).cell = some text := by
      rw [editGrade_invalid enrollmentId text input res hv]
    refine ⟨fun h => absurd hcellE h, ?_, ?_, fun _ => hcellE, fun _ => hcellE⟩
    · intro _ input2 g2 _ _ _ hans hp2 h0 h100 _ _
      cases hans
      exact absurd ⟨g2, hp2, h0, h100⟩ hv
    · intro h; cases h

/-! ## Failed responses -/

/-- The text `alert` shows for `data.message || fallback`. -/
theorem or_fallback_toStr (message : JsVal) (fallback : String) :
    (message.or (.str fallback)).toStr =
      if message.truthy then message.toStr else fallback := by
  unfold JsVal.or
  by_cases h : message.truthy = true <;> simp [h, JsVal.toStr]

/-- C3, as stated, fails: for a failed response whose body carries an empty
message (or none at all), each of the three handlers alerts its own fixed
text, which is not the text the server returned. -/
theorem failed_response_alert_client_text :
    enrollInCourse 3 (.response false (.bool false) (.str "")) =
      [.fetch "POST" "/api/enroll" "course_id" 3 none, .alert "Failed to enroll."] ∧
    dropCourse 3 true (.response false (.bool false) .undefined) =
      [.confirm "Drop this course?", .fetch "POST" "/api/drop" "course_id" 3 none,
       .alert "Failed to drop."] ∧
    (editGrade 7 (some "N/A") (some "90") (.response true (.bool false) (.str ""))).effects =
      [.prompt "Enter new grade (0-100):" "",
       .fetch "PUT" "/api/grade" "enrollment_id" 7 (some 90),
       .alert "Failed to update grade."] ∧
    "Failed to enroll." ≠ (JsVal.str "").toStr ∧
    "Failed to drop." ≠ JsVal.undefined.toStr ∧
    "Failed to update grade." ≠ (JsVal.str "").toStr := by
  decide

/-- C3, amended: for a failed response (status not ok, or `success` falsy) each
of `enrollInCourse`, `dropCourse` and `editGrade` shows exactly one alert after
its request; its text is the server's `message` when that is truthy (present
and non-empty), and otherwise the handler's fixed fallback text. -/
theorem failed_response_alert (id : Int) (text input : String) (g : Int)
    (ok : Bool) (success message : JsVal)
    (hfail : ok = false ∨ success.truthy = false)
    (hp : parseInt input = some g) (h0 : 0 ≤ g) (h100 : g ≤ 100) :
    enrollInCourse id (.response ok success message) =
      [.fetch "POST" "/api/enroll" "course_id" id none,
       .alert (if message.truthy then message.toStr else "Failed to enroll.")] ∧
    dropCourse id true (.response ok success message) =
      [.confirm "Drop this course?", .fetch "POST" "/api/drop" "course_id" id none,
       .alert (if message.truthy then message.toStr else "Failed to drop.")] ∧
    (editGrade id (some text) (some input) (.response ok success message)).effects =
      [.prompt "Enter new grade (0-100):" (if text = "N/A" then "" else trim text),
       .fetch "PUT" "/api/grade" "enrollment_id" id (some g),
       .alert (if message.truthy then message.toStr else "Failed to update grade.")] := by
  have hc : (!ok || !success.truthy) = true := by
    rcases hfail with h | h <;> simp [h]
  refine ⟨?_, ?_, ?_⟩
  · simp only [enrollInCourse, hc, if_true, or_fallback_toStr]
  · simp only [dropCourse, hc, if_true, or_fallback_toStr, Bool.not_true]
    rfl
  · rw [editGrade_valid id text input _ g hp h0 h100]
    simp only [hc, if_true, or_fallback_toStr]

/-- C3 amended, at a concrete run: a 409 whose body says `Course is full`. -/
theorem failed_response_alert_witness :
    ((false = false ∨ (JsVal.bool false).truthy = false) ∧
      parseInt "90" = some 90 ∧ (0 : Int) ≤ 90 ∧ (90 : Int) ≤ 100) ∧
    (enrollInCourse 3 (.response false (.bool false) (.str "Course is full")) =
      [.fetch "POST" "/api/enroll" "course_id" 3 none,
       .alert (if (JsVal.str "Course is full").truthy then (JsVal.str "Course is full").toStr
         else "Failed to enroll.")] ∧
    dropCourse 3 true (.response false (.bool false) (.str "Course is full")) =
      [.confirm "Drop this course?", .fetch "POST" "/api/drop" "course_id" 3 none,
       .alert (if (JsVal.str "Course is full").truthy then (JsVal.str "Course is full").toStr
         else "Failed to drop.")] ∧
    (editGrade 3 (some "N/A") (some "90")
        (.response false (.bool false) (.str "Course is full"))).effects =
      [.prompt "Enter new grade (0-100):" (if "N/A" = "N/A" then "" else trim "N/A"),
       .fetch "PUT" "/api/grade" "enrollment_id" 3 (some 90),
       .alert (if (JsVal.str "Course is full").truthy then (JsVal.str "Course is full").toStr
         else "Failed to update grade.")]) :=
  ⟨⟨Or.inl rfl, by decide, by decide, by decide⟩,
    failed_response_alert 3 "N/A" "90" 90 false (.bool false) (.str "Course is full")
      (Or.inl rfl) (by decide) (by decide) (by decide)⟩

/-! ## The login button -/

/-- After `classList.add(t)` the token is in the list. -/
theorem mem_classListAdd (classes : List String) (token : String) :
    token ∈ classListAdd classes token := by
  unfold classListAdd
  by_cases h : token ∈ classes <;> simp [h]

/-- After `classList.remove(t)` the token is not in the list. -/
theorem not_mem_classListRemove (classes : List String) (token : String) :
    token ∉ classListRemove classes token := by
  simp [classListRemove]

/-- A trimmed text is non-empty exactly when the text has a character that is
not white space. -/
theorem trim_ne_empty_iff (s : String) :
    trim s ≠ "" ↔ ∃ c ∈ s.data, isWhiteSpace c = false := by
  have hne : trim s ≠ "" ↔ trimChars s.data ≠ [] := by
    unfold trim
    constructor
    · intro h hnil
      exact h (by rw [hnil])
    · intro h heq
      exact h (congrArg String.data heq)
  rw [hne]
  unfold trimChars
  constructor
  · intro h
    have h1 : s.data.dropWhile isWhiteSpace ≠ [] := by
      intro hnil
      rw [hnil] at h
      exact h rfl
    by_contra hall
    push_neg at hall
    apply h1
    rw [List.dropWhile_eq_nil_iff]
    intro c hc
    have := hall c hc
    simpa using this
  · rintro ⟨c, hc, hws⟩
    intro hnil
    have hrev : (s.data.dropWhile isWhiteSpace).reverse.dropWhile isWhiteSpace = [] := by
      simpa using hnil
    rw [List.dropWhile_eq_nil_iff] at hrev
    have hd : s.data.dropWhile isWhiteSpace ≠ [] := by
      intro hnil2
      rw [List.dropWhile_eq_nil_iff] at hnil2
      have := hnil2 c hc
      rw [hws] at this
      exact absurd this (by decide)
    obtain ⟨x, xs, hx⟩ := List.exists_cons_of_ne_nil hd
    have hxw : isWhiteSpace x = false := by
      have := List.head_dropWhile_not isWhiteSpace s.data hd
      simpa [hx] using this
    have := hrev x (by rw [hx]; simp)
    rw [hxw] at this
    exact absurd this (by decide)

/-- C7: after `updateLoginButton` runs with the button and both inputs present,
the button is enabled and carries the class `active` exactly when the trimmed
username and the trimmed password are both non-empty (each has a character
that is not white space); otherwise it is disabled and does not carry
`active`.  The disabled flag is always the negation of carrying `active`. -/
theorem updateLoginButton_active_iff_filled (button : Button) (username password : String) :
    ∃ after, updateLoginButton (some button) (some username) (some password) = some after ∧
      ((after.disabled = false ∧ "active" ∈ after.classList) ↔
        (trim username ≠ "" ∧ trim password ≠ "")) ∧
      ((after.disabled = true ∧ "active" ∉ after.classList) ↔
        ¬ (trim username ≠ "" ∧ trim password ≠ "")) ∧
      (after.disabled = true ↔ "active" ∉ after.classList) ∧
      ((trim username ≠ "" ∧ trim password ≠ "") ↔
        ((∃ c ∈ username.data, isWhiteSpace c = false) ∧
         (∃ c ∈ password.data, isWhiteSpace c = false))) := by
  have hadd := mem_classListAdd button.classList "active"
  have hrem := not_mem_classListRemove button.classList "active"
  have hchar := and_congr (trim_ne_empty_iff username) (trim_ne_empty_iff password)
  by_cases hf : trim username ≠ "" ∧ trim password ≠ ""
  · refine ⟨{ classList := classListAdd button.classList "active", disabled := false },
      ?_, ?_, ?_, ?_, hchar⟩
    · simp [updateLoginButton, hf.1, hf.2]
    · simp [hadd, hf]
    · simp [hadd, hf]
    · simp [hadd]
  · refine ⟨{ classList := classListRemove button.classList "active", disabled := true },
      ?_, ?_, ?_, ?_, hchar⟩
    · have hf2 : trim username = "" ∨ trim password = "" := by
        by_contra hc
        push_neg at hc
        exact hf hc
      rcases hf2 with h | h <;> simp [updateLoginButton, h]
    · simp [hrem, hf]
    · simp [hrem, hf]
    · simp [hrem]

/-! ## `renderAllCourses` and `renderTeacherCourses` -/

/-- For a non-empty course list `renderAllCourses` writes the table whose body
is the rows of the courses, in order. -/
theorem renderAllCourses_of_mem (c : Course) (allCourses : List Course)
    (enrolledIds : List Int) (hmem : c ∈ allCourses) :
    renderAllCourses allCourses enrolledIds =
      "\n    <table>\n      <thead>\n        <tr>\n          <th>Course</th>\n"
        ++ "          <th>Instructor</th>\n          <th>Time</th>\n"
        ++ "          <th>Enrolled</th>\n          <th>Status</th>\n"
        ++ "          <th>Action</th>\n        </tr>\n      </thead>\n      <tbody>"
        ++ String.join (allCourses.map fun d => courseRowHtml d enrolledIds)
        ++ "</tbody>\n    </table>\n  " := by
  cases allCourses with
  | nil => cases hmem
  | cons d ds => rfl

/-- C9: the row `renderAllCourses` writes for a course `c` has the text
`status` in its status cell and the attribute `disabled` on its Enroll button
exactly when `disabled` is set, and the table body is made of these rows.  The
button is enabled exactly when the status is `Open`, which is exactly when the
course id is not in the enrolled set and `is_full` is falsy; a course whose id
is in the enrolled set shows `Enrolled` with a disabled button whatever
`is_full` says. -/
theorem courseRow_enabled_iff_open (c : Course) (enrolledIds : List Int) :
    courseRowHtml c enrolledIds =
      "\n      <tr>\n        <td>" ++ escapeHtml c.course_name ++ " (" ++ escapeHtml c.course_code
        ++ ")</td>\n        <td>" ++ escapeHtml (c.teacher_name.or (.str "TBA"))
        ++ "</td>\n        <td>" ++ escapeHtml c.time
        ++ "</td>\n        <td>" ++ toString c.enrolled_count ++ "/" ++ toString c.capacity
        ++ "</td>\n        <td>" ++ (courseRow c enrolledIds).status
        ++ "</td>\n        <td>\n          <button class=\"" ++ (courseRow c enrolledIds).buttonClass ++ "\" "
        ++ (if (courseRow c enrolledIds).disabled = true then "disabled" else "")
        ++ " onclick=\"enrollInCourse(" ++ toString c.id
        ++ ")\">Enroll</button>\n        </td>\n      </tr>\n    " ∧
    (∀ allCourses, c ∈ allCourses →
      renderAllCourses allCourses enrolledIds =
        "\n    <table>\n      <thead>\n        <tr>\n          <th>Course</th>\n"
          ++ "          <th>Instructor</th>\n          <th>Time</th>\n"
          ++ "          <th>Enrolled</th>\n          <th>Status</th>\n"
          ++ "          <th>Action</th>\n        </tr>\n      </thead>\n      <tbody>"
          ++ String.join (allCourses.map fun d => courseRowHtml d enrolledIds)
          ++ "</tbody>\n    </table>\n  ") ∧
    ((courseRow c enrolledIds).disabled = false ↔ (courseRow c enrolledIds).status = "Open") ∧
    ((courseRow c enrolledIds).status = "Open" ↔
      (c.id ∉ enrolledIds ∧ c.is_full.truthy = false)) ∧
    (c.id ∈ enrolledIds →
      (courseRow c enrolledIds).status = "Enrolled" ∧
      (courseRow c enrolledIds).disabled = true) := by
  refine ⟨rfl, fun allCourses hmem => renderAllCourses_of_mem c allCourses enrolledIds hmem, ?_⟩
  by_cases he : c.id ∈ enrolledIds <;> by_cases hf : c.is_full.truthy = true <;>
    simp [courseRow, he, hf]

/-- C4, as stated, fails: the row is driven by the `is_full` field, not by the
counts.  A course at 30/30 with `is_full` false is rendered with `Open` in its
status cell and an Enroll button without the `disabled` attribute, and a course
at 0/30 with `is_full` true is rendered with `Full` and a disabled button. -/
theorem courseRow_status_ignores_counts :
    courseRowHtml ⟨1, .str "Algebra", .str "MATH1", .str "Ada", .str "MWF 9", 30, 30,
        .bool false⟩ [] =
      "\n      <tr>\n        <td>Algebra (MATH1)</td>\n        <td>Ada</td>\n"
        ++ "        <td>MWF 9</td>\n        <td>30/30</td>\n        <td>Open</td>\n"
        ++ "        <td>\n          <button class=\"\"  onclick=\"enrollInCourse(1)\">"
        ++ "Enroll</button>\n        </td>\n      </tr>\n    " ∧
    courseRowHtml ⟨2, .str "Logic", .str "PHIL2", .str "Bob", .str "TR 1", 0, 30,
        .bool true⟩ [] =
      "\n      <tr>\n        <td>Logic (PHIL2)</td>\n        <td>Bob</td>\n"
        ++ "        <td>TR 1</td>\n        <td>0/30</td>\n        <td>Full</td>\n"
        ++ "        <td>\n          <button class=\"full\" disabled onclick=\"enrollInCourse(2)\">"
        ++ "Enroll</button>\n        </td>\n      </tr>\n    " ∧
    (courseRow ⟨1, .str "Algebra", .str "MATH1", .str "Ada", .str "MWF 9", 30, 30, .bool false⟩
        []).status = "Open" ∧
    (courseRow ⟨1, .str "Algebra", .str "MATH1", .str "Ada", .str "MWF 9", 30, 30, .bool false⟩
        []).disabled = false ∧
    (courseRow ⟨2, .str "Logic", .str "PHIL2", .str "Bob", .str "TR 1", 0, 30, .bool true⟩
        []).status = "Full" ∧
    (courseRow ⟨2, .str "Logic", .str "PHIL2", .str "Bob", .str "TR 1", 0, 30, .bool true⟩
        []).disabled = true := by
  refine ⟨?_, ?_, by decide, by decide, by decide, by decide⟩ <;> rfl

/-- C4, amended: the row `renderAllCourses` writes for a course `c` has the text
`status` in its status cell and the attribute `disabled` on its Enroll button
exactly when `disabled` is set, and the table body is made of these rows.  For
a course not in the enrolled set, the row shows `Full` with a disabled button
exactly when `c.is_full` is truthy and `Open` with an enabled button exactly
when it is falsy; when `is_full` agrees with `enrolled_count >= capacity`, these
are the cases `enrolled_count >= capacity` and `enrolled_count < capacity`. -/
theorem courseRow_full_iff_is_full (c : Course) (enrolledIds : List Int)
    (hne : c.id ∉ enrolledIds) :
    courseRowHtml c enrolledIds =
      "\n      <tr>\n        <td>" ++ escapeHtml c.course_name ++ " (" ++ escapeHtml c.course_code
        ++ ")</td>\n        <td>" ++ escapeHtml (c.teacher_name.or (.str "TBA"))
        ++ "</td>\n        <td>" ++ escapeHtml c.time
        ++ "</td>\n        <td>" ++ toString c.enrolled_count ++ "/" ++ toString c.capacity
        ++ "</td>\n        <td>" ++ (courseRow c enrolledIds).status
        ++ "</td>\n        <td>\n          <button class=\"" ++ (courseRow c enrolledIds).buttonClass ++ "\" "
        ++ (if (courseRow c enrolledIds).disabled = true then "disabled" else "")
        ++ " onclick=\"enrollInCourse(" ++ toString c.id
        ++ ")\">Enroll</button>\n        </td>\n      </tr>\n    " ∧
    (∀ allCourses, c ∈ allCourses →
      renderAllCourses allCourses enrolledIds =
        "\n    <table>\n      <thead>\n        <tr>\n          <th>Course</th>\n"
          ++ "          <th>Instructor</th>\n          <th>Time</th>\n"
          ++ "          <th>Enrolled</th>\n          <th>Status</th>\n"
          ++ "          <th>Action</th>\n        </tr>\n      </thead>\n      <tbody>"
          ++ String.join (allCourses.map fun d => courseRowHtml d enrolledIds)
          ++ "</tbody>\n    </table>\n  ") ∧
    (((courseRow c enrolledIds).status = "Full" ∧ (courseRow c enrolledIds).disabled = true) ↔
      c.is_full.truthy = true) ∧
    (((courseRow c enrolledIds).status = "Open" ∧ (courseRow c enrolledIds).disabled = false) ↔
      c.is_full.truthy = false) ∧
    ((c.is_full.truthy = true ↔ c.enrolled_count ≥ c.capacity) →
      ((((courseRow c enrolledIds).status = "Full" ∧ (courseRow c enrolledIds).disabled = true) ↔
          c.enrolled_count ≥ c.capacity) ∧
       (((courseRow c enrolledIds).status = "Open" ∧ (courseRow c enrolledIds).disabled = false) ↔
          c.enrolled_count < c.capacity))) := by
  have h1 : ((courseRow c enrolledIds).status = "Full" ∧
      (courseRow c enrolledIds).disabled = true) ↔ c.is_full.truthy = true := by
    by_cases hf : c.is_full.truthy = true <;> simp [courseRow, hne, hf]
  have h2 : ((courseRow c enrolledIds).status = "Open" ∧
      (courseRow c enrolledIds).disabled = false) ↔ c.is_full.truthy = false := by
    by_cases hf : c.is_full.truthy = true <;> simp [courseRow, hne, hf]
  refine ⟨rfl, fun allCourses hmem => renderAllCourses_of_mem c allCourses enrolledIds hmem,
    h1, h2, fun hagree => ⟨h1.trans hagree, h2.trans ?_⟩⟩
  rw [← not_le, ← ge_iff_le, ← hagree]
  simp

/-- C4 amended, at a concrete course: 30/30 with `is_full` true, not among the
enrolled ids 1 and 2. -/
theorem courseRow_full_iff_is_full_witness :
    sampleFullCourse.id ∉ [1, 2] ∧
    (
    courseRowHtml sampleFullCourse [1, 2] =
      "\n      <tr>\n        <td>" ++ escapeHtml sampleFullCourse.course_name ++ " (" ++ escapeHtml sampleFullCourse.course_code
        ++ ")</td>\n        <td>" ++ escapeHtml (sampleFullCourse.teacher_name.or (.str "TBA"))
        ++ "</td>\n        <td>" ++ escapeHtml sampleFullCourse.time
        ++ "</td>\n        <td>" ++ toString sampleFullCourse.enrolled_count ++ "/" ++ toString sampleFullCourse.capacity
        ++ "</td>\n        <td>" ++ (courseRow sampleFullCourse [1, 2]).status
        ++ "</td>\n        <td>\n          <button class=\"" ++ (courseRow sampleFullCourse [1, 2]).buttonClass ++ "\" "
        ++ (if (courseRow sampleFullCourse [1, 2]).disabled = true then "disabled" else "")
        ++ " onclick=\"enrollInCourse(" ++ toString sampleFullCourse.id
        ++ ")\">Enroll</button>\n        </td>\n      </tr>\n    " ∧
    (∀ allCourses, sampleFullCourse ∈ allCourses →
      renderAllCourses allCourses [1, 2] =
        "\n    <table>\n      <thead>\n        <tr>\n          <th>Course</th>\n"
          ++ "          <th>Instructor</th>\n          <th>Time</th>\n"
          ++ "          <th>Enrolled</th>\n          <th>Status</th>\n"
          ++ "          <th>Action</th>\n        </tr>\n      </thead>\n      <tbody>"
          ++ String.join (allCourses.map fun d => courseRowHtml d [1, 2])
          ++ "</tbody>\n    </table>\n  ") ∧
    (((courseRow sampleFullCourse [1, 2]).status = "Full" ∧ (courseRow sampleFullCourse [1, 2]).disabled = true) ↔
      sampleFullCourse.is_full.truthy = true) ∧
    (((courseRow sampleFullCourse [1, 2]).status = "Open" ∧ (courseRow sampleFullCourse [1, 2]).disabled = false) ↔
      sampleFullCourse.is_full.truthy = false) ∧
    ((sampleFullCourse.is_full.truthy = true ↔ sampleFullCourse.enrolled_count ≥ sampleFullCourse.capacity) →
      ((((courseRow sampleFullCourse [1, 2]).status = "Full" ∧ (courseRow sampleFullCourse [1, 2]).disabled = true) ↔
          sampleFullCourse.enrolled_count ≥ sampleFullCourse.capacity) ∧
       (((courseRow sampleFullCourse [1, 2]).status = "Open" ∧ (courseRow sampleFullCourse [1, 2]).disabled = false) ↔
          sampleFullCourse.enrolled_count < sampleFullCourse.capacity)))) :=
  ⟨by decide, courseRow_full_iff_is_full sampleFullCourse [1, 2] (by decide)⟩

set_option maxRecDepth 100000 in
/-- C5, as stated, fails: a teacher course whose `enrolled_count` is 5 while
its `students` list is empty is rendered with `Enrolled: 5/30` above the note
`No students enrolled.`, that is, above zero student rows. -/
theorem enrolledShown_not_row_count :
    courseCardHtml ⟨.str "Algebra", .str "MATH1", .str "MWF 9", .num 5, .num 30, some []⟩ =
      "\n            <div class=\"course-card\">\n                <div class=\"course-head\">\n"
        ++ "                    <div><strong>Algebra</strong> (MATH1)</div>\n"
        ++ "                    <div class=\"course-meta\">MWF 9 • Enrolled: 5/30</div>\n"
        ++ "                </div>\n                <div class=\"course-body\">\n"
        ++ "                    <div class=\"empty\">No students enrolled.</div>\n"
        ++ "                </div>\n            </div>\n        " ∧
    (enrolledShown ⟨.str "Algebra", .str "MATH1", .str "MWF 9", .num 5, .num 30, some []⟩).toStr
      = "5" ∧
    (studentRows ⟨.str "Algebra", .str "MATH1", .str "MWF 9", .num 5, .num 30, some []⟩).length
      = 0 := by
  refine ⟨?_, by decide, by decide⟩
  rfl

/-- C5, amended: the card `renderTeacherCourses` writes for a course `c` shows
`Enrolled: n/capacity` with `n = enrolledShown c` above the student rows
`studentRows c`, one row per entry of `c.students` (none when absent).  The
count `n` is `c.enrolled_count` when that field is truthy (present and not
zero), and otherwise the number of student rows listed; so it equals the
number of rows whenever `enrolled_count` is falsy or equal to that number. -/
theorem enrolledShown_eq (c : TeacherCourse) :
    courseCardHtml c =
      "\n            <div class=\"course-card\">\n                <div class=\"course-head\">\n"
        ++ "                    <div><strong>" ++ escapeHtml c.course_name ++ "</strong> ("
        ++ escapeHtml c.course_code ++ ")</div>\n"
        ++ "                    <div class=\"course-meta\">" ++ escapeHtml c.time
        ++ " • Enrolled: " ++ (enrolledShown c).toStr ++ "/" ++ c.capacity.toStr ++ "</div>\n"
        ++ "                </div>\n                <div class=\"course-body\">\n"
        ++ "                    "
        ++ (if String.join (studentRows c) != "" then
              "\n                <table>\n                    <thead>\n"
                ++ "                        <tr>\n"
                ++ "                            <th>Student</th>\n"
                ++ "                            <th>Grade</th>\n"
                ++ "                            <th>Actions</th>\n"
                ++ "                        </tr>\n                    </thead>\n"
                ++ "                    <tbody>" ++ String.join (studentRows c) ++ "</tbody>\n"
                ++ "                </table>\n              "
            else "<div class=\"empty\">No students enrolled.</div>")
        ++ "\n                </div>\n"
        ++ "            </div>\n        " ∧
    (∀ courses, c ∈ courses →
      renderTeacherCourses courses = String.join (courses.map courseCardHtml)) ∧
    studentRows c = (c.students.getD []).map studentRowHtml ∧
    (studentRows c).length = (c.students.getD []).length ∧
    enrolledShown c =
      (if c.enrolled_count.truthy then c.enrolled_count
       else .num ((studentRows c).length : Int)) ∧
    (c.enrolled_count.truthy = false ∨ c.enrolled_count = .num ((studentRows c).length : Int) →
      enrolledShown c = .num ((studentRows c).length : Int)) := by
  have hlen : (match c.students with
      | some students => (students.length : Int)
      | none => 0) = ((studentRows c).length : Int) := by
    unfold studentRows
    cases c.students <;> simp
  have h1 : enrolledShown c =
      (if c.enrolled_count.truthy then c.enrolled_count
       else .num ((studentRows c).length : Int)) := by
    unfold enrolledShown JsVal.or
    rw [hlen]
  have hrender : ∀ courses, c ∈ courses →
      renderTeacherCourses courses = String.join (courses.map courseCardHtml) := by
    intro courses hmem
    cases courses with
    | nil => cases hmem
    | cons d ds => rfl
  refine ⟨rfl, hrender, rfl, by simp [studentRows], h1, ?_⟩
  rintro (h | h)
  · rw [h1, h]; rfl
  · rw [h1]
    by_cases ht : c.enrolled_count.truthy = true
    · rw [if_pos ht, h]
    · rw [if_neg ht]

/-! ## `escapeHtml` -/

/-- A `replaceAll` step distributes over concatenation. -/
theorem replaceChars_append (p : Char) (r a b : List Char) :
    replaceChars p r (a ++ b) = replaceChars p r a ++ replaceChars p r b := by
  simp [replaceChars]

/-- The characters of `escapeHtml(str)` are the five steps applied to `String(str)`. -/
theorem escapeHtml_data_eq (v : JsVal) :
    (escapeHtml v).data =
      replaceChars (Char.ofNat 39) "&#39;".data (replaceChars (Char.ofNat 34) "&quot;".data
        (replaceChars '>' "&gt;".data (replaceChars '<' "&lt;".data
          (replaceChars '&' "&amp;".data v.toStr.data)))) := rfl

/-- The five steps act character by character. -/
theorem escapeHtml_data (v : JsVal) :
    (escapeHtml v).data = v.toStr.data.flatMap escapeChar := by
  rw [escapeHtml_data_eq]
  induction v.toStr.data with
  | nil => rfl
  | cons c l ih =>
    have hcons : c :: l = [c] ++ l := rfl
    rw [hcons]
    simp only [replaceChars_append, List.flatMap_append, List.flatMap_singleton, ih]
    rfl

/-- The result of the five steps on one character: the entity for a special
character, the character itself otherwise. -/
theorem escapeChar_eq (c : Char) :
    escapeChar c =
      if c = '&' then "&amp;".data else if c = '<' then "&lt;".data
      else if c = '>' then "&gt;".data else if c = Char.ofNat 34 then "&quot;".data
      else if c = Char.ofNat 39 then "&#39;".data else [c] := by
  by_cases h1 : c = '&'
  · subst h1; decide
  by_cases h2 : c = '<'
  · subst h2; decide
  by_cases h3 : c = '>'
  · subst h3; decide
  by_cases h4 : c = Char.ofNat 34
  · subst h4; decide
  by_cases h5 : c = Char.ofNat 39
  · subst h5; decide
  simp [escapeChar, replaceChars, h1, h2, h3, h4, h5]

/-- A character that is not special is left alone. -/
theorem escapeChar_of_not_special (c : Char) (h : c ∉ specialChars) : escapeChar c = [c] := by
  rw [escapeChar_eq]
  simp only [specialChars, List.mem_cons, List.mem_singleton, not_or, List.not_mem_nil,
    or_false] at h
  obtain ⟨h1, h2, h3, h4, h5⟩ := h
  simp [h1, h2, h3, h4, h5]

/-- No markup character survives in the escape of a single character. -/
theorem escapeChar_no_markup (c ch : Char) (h : ch ∈ escapeChar c) :
    ch ≠ '<' ∧ ch ≠ '>' ∧ ch ≠ Char.ofNat 34 ∧ ch ≠ Char.ofNat 39 := by
  rw [escapeChar_eq] at h
  by_cases h1 : c = '&'
  · rw [if_pos h1] at h; revert ch; decide
  rw [if_neg h1] at h
  by_cases h2 : c = '<'
  · rw [if_pos h2] at h; revert ch; decide
  rw [if_neg h2] at h
  by_cases h3 : c = '>'
  · rw [if_pos h3] at h; revert ch; decide
  rw [if_neg h3] at h
  by_cases h4 : c = Char.ofNat 34
  · rw [if_pos h4] at h; revert ch; decide
  rw [if_neg h4] at h
  by_cases h5 : c = Char.ofNat 39
  · rw [if_pos h5] at h; revert ch; decide
  rw [if_neg h5] at h
  have : ch = c := by simpa using h
  subst this
  exact ⟨h2, h3, h4, h5⟩

/-- Concatenation keeps every `&` at the start of an entity. -/
theorem ampersandsStartEntities_append (a b : List Char)
    (ha : AmpersandsStartEntities a) (hb : AmpersandsStartEntities b) :
    AmpersandsStartEntities (a ++ b) := by
  intro i hi
  by_cases hlt : i < a.length
  · rw [List.getElem?_append_left hlt] at hi
    obtain ⟨e, he, hpre⟩ := ha i hi
    refine ⟨e, he, ?_⟩
    rw [List.drop_append_of_le_length (Nat.le_of_lt hlt)]
    exact hpre.trans (List.prefix_append _ _)
  · have hle : a.length ≤ i := Nat.le_of_not_lt hlt
    rw [List.getElem?_append_right hle] at hi
    obtain ⟨e, he, hpre⟩ := hb (i - a.length) hi
    refine ⟨e, he, ?_⟩
    have hdrop : List.drop i (a ++ b) = List.drop (i - a.length) b := by
      have := @List.drop_append _ a b (i - a.length)
      rwa [Nat.add_sub_cancel' hle] at this
    rw [hdrop]
    exact hpre

/-- In the escape of a single character every `&` starts an entity. -/
theorem ampersandsStartEntities_escapeChar (c : Char) :
    AmpersandsStartEntities (escapeChar c) := by
  have entity : ∀ e ∈ entities, AmpersandsStartEntities e.data := by
    intro e he i hi
    have hi0 : i = 0 := by
      simp only [entities, List.mem_cons, List.mem_singleton, List.not_mem_nil, or_false] at he
      rcases he with rfl | rfl | rfl | rfl | rfl
      all_goals
        rcases i with _ | _ | _ | _ | _ | _ | _ | i
        all_goals first | rfl | (exfalso; revert hi; simp)
    subst hi0
    exact ⟨e, he, by simp⟩
  rw [escapeChar_eq]
  by_cases h1 : c = '&'
  · rw [if_pos h1]; exact entity "&amp;" (by simp [entities])
  rw [if_neg h1]
  by_cases h2 : c = '<'
  · rw [if_pos h2]; exact entity "&lt;" (by simp [entities])
  rw [if_neg h2]
  by_cases h3 : c = '>'
  · rw [if_pos h3]; exact entity "&gt;" (by simp [entities])
  rw [if_neg h3]
  by_cases h4 : c = Char.ofNat 34
  · rw [if_pos h4]; exact entity "&quot;" (by simp [entities])
  rw [if_neg h4]
  by_cases h5 : c = Char.ofNat 39
  · rw [if_pos h5]; exact entity "&#39;" (by simp [entities])
  rw [if_neg h5]
  intro i hi
  rcases i with _ | i
  · have : c = '&' := by simpa using hi
    exact absurd this h1
  · simp at hi

/-- In a character-wise escaped text every `&` starts an entity. -/
theorem ampersandsStartEntities_flatMap (l : List Char) :
    AmpersandsStartEntities (l.flatMap escapeChar) := by
  induction l with
  | nil => intro i hi; simp at hi
  | cons c l ih =>
    rw [List.flatMap_cons]
    exact ampersandsStartEntities_append _ _ (ampersandsStartEntities_escapeChar c) ih

/-- A text without special characters is escaped to itself. -/
theorem flatMap_escapeChar_of_not_special (l : List Char) (h : ∀ ch ∈ l, ch ∉ specialChars) :
    l.flatMap escapeChar = l := by
  induction l with
  | nil => rfl
  | cons c l ih =>
    rw [List.flatMap_cons, escapeChar_of_not_special c (h c (List.mem_cons_self c l)),
      ih (fun ch hch => h ch (List.mem_cons_of_mem c hch))]
    rfl

/-- C8: for every input (a string `s`, or any value after `String(...)`) the
output of `escapeHtml` contains none of `<`, `>`, the double quote and the
apostrophe; every `&` in the output is the first character of one of the five
entities `&amp;`, `&lt;`, `&gt;`, `&quot;`, `&#39;`; and `escapeHtml(s) = s` when
`s` contains none of the five special characters. -/
theorem escapeHtml_output_escaped (v : JsVal) (s : String) :
    (∀ ch ∈ (escapeHtml v).data,
      ch ≠ '<' ∧ ch ≠ '>' ∧ ch ≠ Char.ofNat 34 ∧ ch ≠ Char.ofNat 39) ∧
    (∀ i, (escapeHtml v).data[i]? = some '&' →
      ∃ e ∈ entities, e.data <+: (escapeHtml v).data.drop i) ∧
    ((∀ ch ∈ s.data, ch ∉ specialChars) → escapeHtml (.str s) = s) := by
  refine ⟨?_, ?_, ?_⟩
  · intro ch hch
    rw [escapeHtml_data, List.mem_flatMap] at hch
    obtain ⟨c, _, hc⟩ := hch
    exact escapeChar_no_markup c ch hc
  · rw [escapeHtml_data]
    exact ampersandsStartEntities_flatMap _
  · intro h
    have hd : (escapeHtml (.str s)).data = s.data := by
      rw [escapeHtml_data]
      exact flatMap_escapeChar_of_not_special s.data h
    exact String.ext hd

end Script
